import Mathlib

/-!
# Verification of the chatbot server bridge and endpoint

Shallow embedding of the backend glue of the repository:
* `src/server/chatbot.js` — the Conversational Bridge (`talkToChatbot`);
* `src/server/index.js` — the HTTP Endpoint (`POST /chatbot`);
* the alternate variant (`POST /send-msg` with `runSample`) found in
  `src/server/node_modules/dialogflow/src/v2beta1/doc/google/cloud/dialogflow/v2beta1/doc_knowledge_base.js`.

JavaScript values flowing through the request bodies are modelled by `JsVal`
(undefined, null, string, object); promise settlement by `POutcome`; the remote
`detectIntent` call is a parameter producing a `POutcome`.
-/

namespace ChatbotServer

/-- A JavaScript value as it appears in request/response bodies:
`undefined`, `null`, a string, or an object given as a field list. -/
inductive JsVal where
  | undef : JsVal
  | vnull : JsVal
  | vstr : String → JsVal
  | vobj : List (String × JsVal) → JsVal
deriving Repr

mutual

/-- Structural equality test on `JsVal` (decidable equality is derived from
it below; the nested recursion blocks automatic derivation). -/
def JsVal.beq : JsVal → JsVal → Bool
  | JsVal.undef, JsVal.undef => true
  | JsVal.vnull, JsVal.vnull => true
  | JsVal.vstr s, JsVal.vstr t => s == t
  | JsVal.vobj l, JsVal.vobj m => beqFields l m
  | _, _ => false

/-- Structural equality test on field lists. -/
def beqFields : List (String × JsVal) → List (String × JsVal) → Bool
  | [], [] => true
  | (k, v) :: l, (k2, v2) :: m => k == k2 && JsVal.beq v v2 && beqFields l m
  | _, _ => false

end

mutual

/-- The test `JsVal.beq` decides equality. -/
theorem JsVal.beq_iff : ∀ a b : JsVal, JsVal.beq a b = true ↔ a = b
  | JsVal.undef, JsVal.undef => by simp [JsVal.beq]
  | JsVal.undef, JsVal.vnull => by simp [JsVal.beq]
  | JsVal.undef, JsVal.vstr _ => by simp [JsVal.beq]
  | JsVal.undef, JsVal.vobj _ => by simp [JsVal.beq]
  | JsVal.vnull, JsVal.undef => by simp [JsVal.beq]
  | JsVal.vnull, JsVal.vnull => by simp [JsVal.beq]
  | JsVal.vnull, JsVal.vstr _ => by simp [JsVal.beq]
  | JsVal.vnull, JsVal.vobj _ => by simp [JsVal.beq]
  | JsVal.vstr _, JsVal.undef => by simp [JsVal.beq]
  | JsVal.vstr _, JsVal.vnull => by simp [JsVal.beq]
  | JsVal.vstr _, JsVal.vstr _ => by simp [JsVal.beq]
  | JsVal.vstr _, JsVal.vobj _ => by simp [JsVal.beq]
  | JsVal.vobj _, JsVal.undef => by simp [JsVal.beq]
  | JsVal.vobj _, JsVal.vnull => by simp [JsVal.beq]
  | JsVal.vobj _, JsVal.vstr _ => by simp [JsVal.beq]
  | JsVal.vobj l, JsVal.vobj m => by simp [JsVal.beq, beqFields_iff l m]

/-- The test `beqFields` decides equality of field lists. -/
theorem beqFields_iff : ∀ l m : List (String × JsVal), beqFields l m = true ↔ l = m
  | [], [] => by simp [beqFields]
  | [], (_, _) :: _ => by simp [beqFields]
  | (_, _) :: _, [] => by simp [beqFields]
  | (k, v) :: l, (k2, v2) :: m => by
      simp [beqFields, JsVal.beq_iff v v2, beqFields_iff l m, and_assoc]

end

instance : DecidableEq JsVal := fun a b =>
  decidable_of_iff (JsVal.beq a b = true) (JsVal.beq_iff a b)

/-- JS string coercion (`"" + v`), used by the `console.log` calls. -/
def jsValToString : JsVal → String
  | JsVal.undef => "undefined"
  | JsVal.vnull => "null"
  | JsVal.vstr s => s
  | JsVal.vobj _ => "[object Object]"

/-- The matched intent inside a `queryResult` (only the field the repo reads). -/
structure Intent where
  displayName : String
deriving DecidableEq, Repr

/-- The `queryResult` of a `detectIntent` response: the fields the repository
touches (`queryText`, `fulfillmentText`, `intent`). -/
structure QueryResult where
  queryText : String
  fulfillmentText : String
  intent : Option Intent
deriving DecidableEq, Repr

/-- The element `responses[0]` of a settled `detectIntent` call. -/
structure DetectIntentResponse where
  queryResult : QueryResult
deriving DecidableEq, Repr

/-- Modelled from the spec: `src/server/chatbot.js` requires `./config`
(project identifier and service-account credentials), a file not present in
the sources; the spec says they are "read from process configuration at
startup". -/
structure DialogflowConfig where
  projectId : String
  privateKey : String
  clientEmail : String
deriving DecidableEq, Repr

/-- The constant `sessionId = "987654"` of `src/server/chatbot.js`. -/
def sessionId : String := "987654"

/-- The constant `languageCode = "en-US"` of `src/server/chatbot.js`. -/
def languageCode : String := "en-US"

/-- The value `sessionClient.sessionPath(projectId, sessionId)`: the vendored client's
path template `projects/{project}/agent/sessions/{session}` instantiated on
the module constants, computed once at process start. -/
def sessionPath (cfg : DialogflowConfig) : String :=
  "projects/" ++ cfg.projectId ++ "/agent/sessions/" ++ sessionId

/-- The field `queryInput.text` of the outbound request. -/
structure TextInput where
  text : JsVal
  languageCode : String
deriving DecidableEq, Repr

/-- The field `queryInput` of the outbound request. -/
structure QueryInput where
  text : TextInput
deriving DecidableEq, Repr

/-- The outbound request `botRequest` built by `talkToChatbot`. -/
structure BotRequest where
  session : String
  queryInput : QueryInput
deriving DecidableEq, Repr

/-- The `botRequest` object literal of `src/server/chatbot.js`. -/
def buildBotRequest (cfg : DialogflowConfig) (message : JsVal) : BotRequest :=
  { session := sessionPath cfg
    queryInput := { text := { text := message, languageCode := languageCode } } }

/-- Settlement of a JS promise: fulfilled with a value or rejected with an
error (coerced to its message string). -/
inductive POutcome (α : Type) where
  | fulfilled : α → POutcome α
  | rejected : String → POutcome α
deriving DecidableEq, Repr

/-- Promise `.then(f)` for a handler that returns a plain value: maps a fulfilled
value, propagates a rejection. -/
def pThen {α β : Type} (p : POutcome α) (f : α → β) : POutcome β :=
  match p with
  | POutcome.fulfilled a => POutcome.fulfilled (f a)
  | POutcome.rejected e => POutcome.rejected e

/-- Promise `.catch(h)` for a handler that returns normally (possibly `undefined`,
i.e. `none`): a fulfilled value passes through as `some`, a rejection is
replaced by the handler's return value, yielding a fulfilled promise. -/
def pCatch {α : Type} (p : POutcome α) (h : String → Option α) : POutcome (Option α) :=
  match p with
  | POutcome.fulfilled a => POutcome.fulfilled (some a)
  | POutcome.rejected e => POutcome.fulfilled (h e)

/-- The `console.log` lines emitted by one `talkToChatbot` call: the entry
log, then `"ERROR: " + error` when `detectIntent` rejected. -/
def talkLogs (message : JsVal) (remoteOutcome : POutcome DetectIntentResponse) :
    List String :=
  ("message " ++ jsValToString message) ::
    (match remoteOutcome with
     | POutcome.fulfilled _ => []
     | POutcome.rejected e => ["ERROR: " ++ e])

/-- What one `talkToChatbot` call produces: the outbound request it built,
its log lines, and the settlement of the promise it returns. -/
structure TalkResult where
  botRequest : BotRequest
  logs : List String
  outcome : POutcome (Option QueryResult)
deriving DecidableEq, Repr

/-- The function `talkToChatbot` of `src/server/chatbot.js`: builds `botRequest`, calls
`detectIntent`, extracts `responses[0].queryResult` in the `.then`, and in the
`.catch` logs the error and returns `undefined`. -/
def talkToChatbot (cfg : DialogflowConfig)
    (remote : BotRequest → POutcome DetectIntentResponse)
    (message : JsVal) : TalkResult :=
  let botRequest := buildBotRequest cfg message
  let remoteOutcome := remote botRequest
  { botRequest := botRequest
    logs := talkLogs message remoteOutcome
    outcome :=
      pCatch (pThen remoteOutcome (fun responses0 => responses0.queryResult))
        (fun _error => none) }

/-- A parsed HTTP request body: a JSON object as a field list. -/
structure HttpRequest where
  body : List (String × JsVal)
deriving DecidableEq, Repr

/-- Property access `body.k` on a parsed body: the field's value, or
`undefined` when the field is absent. -/
def lookupField (body : List (String × JsVal)) (k : String) : JsVal :=
  match body.find? (fun p => p.1 == k) with
  | some p => p.2
  | none => JsVal.undef

/-- An HTTP response as sent by Express. -/
structure HttpResponse where
  status : Nat
  body : JsVal
deriving DecidableEq, Repr

/-- Express `res.send(x)` with no status set: the status defaults to 200. -/
def send (x : JsVal) : HttpResponse :=
  { status := 200, body := x }

/-- The `queryResult` object as a JS value, as it would be placed in a
response body. -/
def qrToJsVal (qr : QueryResult) : JsVal :=
  JsVal.vobj
    [("queryText", JsVal.vstr qr.queryText),
     ("fulfillmentText", JsVal.vstr qr.fulfillmentText),
     ("intent",
      match qr.intent with
      | some i => JsVal.vobj [("displayName", JsVal.vstr i.displayName)]
      | none => JsVal.vnull)]

/-- The value the endpoint puts in the `message` field: the resolved
`queryResult` object, or `undefined` when the Bridge resolved with none. -/
def optQrToJsVal : Option QueryResult → JsVal
  | some qr => qrToJsVal qr
  | none => JsVal.undef

/-- The `POST /chatbot` handler of `src/server/index.js`: reads
`req.body.message`, calls `talkToChatbot`, and sends `{message: response}` in
the `.then` or `{error: "Error occured here"}` in the `.catch`. -/
def chatbotHandler (cfg : DialogflowConfig)
    (remote : BotRequest → POutcome DetectIntentResponse)
    (req : HttpRequest) : HttpResponse :=
  let message := lookupField req.body "message"
  match (talkToChatbot cfg remote message).outcome with
  | POutcome.fulfilled response =>
      send (JsVal.vobj [("message", optQrToJsVal response)])
  | POutcome.rejected _error =>
      send (JsVal.vobj [("error", JsVal.vstr "Error occured here")])

/-- The request object literal of the alternate variant (same shape as the
Bridge's, on the variant's own uuid-based session path). -/
def buildAltRequest (sessionPathAlt : String) (msg : JsVal) : BotRequest :=
  { session := sessionPathAlt
    queryInput := { text := { text := msg, languageCode := "en-US" } } }

/-- runSample of the alternate variant: builds the same-shaped request on
its own session path, awaits `detectIntent`, and returns
`result.fulfillmentText`; a rejection of `detectIntent` propagates. -/
def runSample (sessionPathAlt : String)
    (remote : BotRequest → POutcome DetectIntentResponse)
    (msg : JsVal) : POutcome String :=
  pThen (remote (buildAltRequest sessionPathAlt msg))
    (fun responses0 => responses0.queryResult.fulfillmentText)

/-- The `POST /send-msg` handler of the alternate variant: reads
`req.body.MSG`, and `runSample(..).then((data) => res.send({Reply: data}))`
with no rejection handler — when `runSample` rejects, no response is sent
(`none`). -/
def sendMsgHandler (sessionPathAlt : String)
    (remote : BotRequest → POutcome DetectIntentResponse)
    (req : HttpRequest) : Option HttpResponse :=
  let msg := lookupField req.body "MSG"
  match runSample sessionPathAlt remote msg with
  | POutcome.fulfilled data => some (send (JsVal.vobj [("Reply", JsVal.vstr data)]))
  | POutcome.rejected _ => none

/-- A whole server run of `POST /chatbot`: each request of the list is
handled independently (the handler closes over no mutable state; the only
shared value is the startup-time session path inside `cfg`), producing per
request the Bridge call result and the HTTP response. -/
def handleAll (cfg : DialogflowConfig)
    (remote : BotRequest → POutcome DetectIntentResponse)
    (reqs : List HttpRequest) : List (TalkResult × HttpResponse) :=
  reqs.map (fun req =>
    (talkToChatbot cfg remote (lookupField req.body "message"),
     chatbotHandler cfg remote req))

/-- The response-body shape the spec ascribes to both HTTP variants:
either a one-field object `message: ...` or a one-field object
`error: <string>`. -/
def respShapeOK (r : HttpResponse) : Prop :=
  (∃ v, r.body = JsVal.vobj [("message", v)]) ∨
    (∃ s, r.body = JsVal.vobj [("error", JsVal.vstr s)])

/-! Concrete fixtures used by counterexamples and witnesses. -/

/-- A concrete process configuration. -/
def cfg0 : DialogflowConfig :=
  { projectId := "buzzwomen", privateKey := "pk", clientEmail := "ce" }

/-- A concrete remote `queryResult` carrying a fulfillment text and a
matched intent. -/
def qrGreet : QueryResult :=
  { queryText := "hello", fulfillmentText := "hi there",
    intent := some { displayName := "greet" } }

/-- A remote service that answers every request with `qrGreet`. -/
def remoteGreet : BotRequest → POutcome DetectIntentResponse :=
  fun _ => POutcome.fulfilled { queryResult := qrGreet }

/-- A remote service whose every call rejects. -/
def remoteDown : BotRequest → POutcome DetectIntentResponse :=
  fun _ => POutcome.rejected "UNAUTHENTICATED"

/-- A concrete request body carrying `message = "hello"`. -/
def reqHello : HttpRequest :=
  { body := [("message", JsVal.vstr "hello")] }

/-- A concrete request body carrying `message = "bye"`. -/
def reqBye : HttpRequest :=
  { body := [("message", JsVal.vstr "bye")] }

/-- The Bridge call and response produced for `reqHello` against
`remoteGreet`. -/
def pairHello : TalkResult × HttpResponse :=
  (talkToChatbot cfg0 remoteGreet (JsVal.vstr "hello"),
   chatbotHandler cfg0 remoteGreet reqHello)

/-- The Bridge call and response produced for `reqBye` against
`remoteGreet`. -/
def pairBye : TalkResult × HttpResponse :=
  (talkToChatbot cfg0 remoteGreet (JsVal.vstr "bye"),
   chatbotHandler cfg0 remoteGreet reqBye)

/-- The Bridge call and response produced for `reqHello` against
`remoteDown`. -/
def pairHelloDown : TalkResult × HttpResponse :=
  (talkToChatbot cfg0 remoteDown (JsVal.vstr "hello"),
   chatbotHandler cfg0 remoteDown reqHello)

end ChatbotServer

namespace ChatbotServer

/-! ## Claim theorems -/

/-- C3: for every input message `m`, the outbound request built by the
Bridge before calling the remote service equals
`{session: S, queryInput: {text: {text: m, languageCode: "en-US"}}}`, where
`S` is the fixed session path computed at startup from the configuration. -/
theorem c3_outbound_request_shape (cfg : DialogflowConfig)
    (remote : BotRequest → POutcome DetectIntentResponse) (m : JsVal) :
    (talkToChatbot cfg remote m).botRequest =
      { session := sessionPath cfg
        queryInput := { text := { text := m, languageCode := "en-US" } } } :=
  rfl

/-- C4: whatever the outcome of the remote call (success or rejection), the
`POST /chatbot` handler responds with HTTP status 200. -/
theorem c4_status_always_200 (cfg : DialogflowConfig)
    (remote : BotRequest → POutcome DetectIntentResponse) (req : HttpRequest) :
    (chatbotHandler cfg remote req).status = 200 := by
  cases h : remote (buildBotRequest cfg (lookupField req.body "message")) <;>
    simp [chatbotHandler, talkToChatbot, pThen, pCatch, h, send]

/-- C5: for every remote-call outcome, `talkToChatbot` resolves (its promise
is fulfilled, never rejected), and consequently the endpoint's catch branch
is unreachable: every response body is the success-shaped
`{message: ...}` object, never `{error: "Error occured here"}`. -/
theorem c5_bridge_never_rejects (cfg : DialogflowConfig)
    (remote : BotRequest → POutcome DetectIntentResponse) (m : JsVal)
    (req : HttpRequest) :
    (∃ v, (talkToChatbot cfg remote m).outcome = POutcome.fulfilled v) ∧
      (∃ v, (chatbotHandler cfg remote req).body =
        JsVal.vobj [("message", v)]) := by
  constructor
  · cases h : remote (buildBotRequest cfg m) with
    | fulfilled a =>
        exact ⟨some a.queryResult, by simp [talkToChatbot, pThen, pCatch, h]⟩
    | rejected e =>
        exact ⟨none, by simp [talkToChatbot, pThen, pCatch, h]⟩
  · cases h : remote (buildBotRequest cfg (lookupField req.body "message")) with
    | fulfilled a =>
        exact ⟨qrToJsVal a.queryResult,
          by simp [chatbotHandler, talkToChatbot, pThen, pCatch, h, send, optQrToJsVal]⟩
    | rejected e =>
        exact ⟨JsVal.undef,
          by simp [chatbotHandler, talkToChatbot, pThen, pCatch, h, send, optQrToJsVal]⟩

/-- C6: every outbound request carries the startup-computed session path, so
any two requests of any server run — even with different message text and
different remote behaviour — share the same session identifier. -/
theorem c6_fixed_session_identifier (cfg : DialogflowConfig)
    (remote remote2 : BotRequest → POutcome DetectIntentResponse)
    (reqs reqs2 : List HttpRequest) (i j : Nat) (r r2 : TalkResult × HttpResponse)
    (hi : (handleAll cfg remote reqs)[i]? = some r)
    (hj : (handleAll cfg remote2 reqs2)[j]? = some r2) :
    r.1.botRequest.session = sessionPath cfg ∧
      r.1.botRequest.session = r2.1.botRequest.session := by
  unfold handleAll at hi hj
  rw [List.getElem?_map] at hi hj
  cases hq : reqs[i]? with
  | none => rw [hq] at hi; cases hi
  | some q =>
      cases hq2 : reqs2[j]? with
      | none => rw [hq2] at hj; cases hj
      | some q2 =>
          rw [hq] at hi; rw [hq2] at hj
          cases hi; cases hj
          exact ⟨rfl, rfl⟩

/-- C6 witness: the session-identifier invariant at a concrete two-request
run with different message text. -/
theorem c6_fixed_session_identifier_witness :
    (handleAll cfg0 remoteGreet [reqHello, reqBye])[0]? = some pairHello ∧
      (handleAll cfg0 remoteGreet [reqHello, reqBye])[1]? = some pairBye ∧
      pairHello.1.botRequest.session = sessionPath cfg0 ∧
      pairHello.1.botRequest.session = pairBye.1.botRequest.session := by
  refine ⟨rfl, rfl, ?_, ?_⟩
  · exact (c6_fixed_session_identifier cfg0 remoteGreet remoteGreet
      [reqHello, reqBye] [reqHello, reqBye] 0 1 pairHello pairBye rfl rfl).1
  · exact (c6_fixed_session_identifier cfg0 remoteGreet remoteGreet
      [reqHello, reqBye] [reqHello, reqBye] 0 1 pairHello pairBye rfl rfl).2

/-- C1 counterexample: for the message `"hello"` answered successfully with
fulfillment text `"hi there"` and matched intent `"greet"`, the response body
is `{message: <the whole queryResult>}` — including the matched intent — and
not `{message: "hi there"}` as the claim states. -/
theorem c1_counterexample :
    chatbotHandler cfg0 remoteGreet reqHello =
      { status := 200
        body := JsVal.vobj [("message",
          JsVal.vobj
            [("queryText", JsVal.vstr "hello"),
             ("fulfillmentText", JsVal.vstr "hi there"),
             ("intent", JsVal.vobj [("displayName", JsVal.vstr "greet")])])] } ∧
      chatbotHandler cfg0 remoteGreet reqHello ≠
        { status := 200, body := JsVal.vobj [("message", JsVal.vstr "hi there")] } := by
  constructor
  · rfl
  · decide

/-- C1 as amended: for a message the remote service answers successfully,
the response body is `{message: <the entire queryResult>}` — the whole remote
result, the matched intent included, reaches the client, not only the
fulfillment text. -/
theorem c1_response_carries_whole_queryResult (cfg : DialogflowConfig)
    (remote : BotRequest → POutcome DetectIntentResponse) (req : HttpRequest)
    (qr : QueryResult)
    (h : remote (buildBotRequest cfg (lookupField req.body "message")) =
      POutcome.fulfilled { queryResult := qr }) :
    chatbotHandler cfg remote req =
      { status := 200, body := JsVal.vobj [("message", qrToJsVal qr)] } := by
  simp [chatbotHandler, talkToChatbot, pThen, pCatch, h, send, optQrToJsVal]

/-- C1 witness: the amended statement evaluated on the concrete success
fixture. -/
theorem c1_response_carries_whole_queryResult_witness :
    chatbotHandler cfg0 remoteGreet reqHello =
      { status := 200, body := JsVal.vobj [("message", qrToJsVal qrGreet)] } :=
  c1_response_carries_whole_queryResult cfg0 remoteGreet reqHello qrGreet rfl

/-- C2: when `detectIntent` rejects, the Bridge logs the error, swallows it,
and resolves with the undefined result (`none`); the endpoint then sends the
success-shaped body whose `message` field carries no value, not an error
payload. -/
theorem c2_remote_failure_swallowed (cfg : DialogflowConfig)
    (remote : BotRequest → POutcome DetectIntentResponse) (req : HttpRequest)
    (e : String)
    (h : remote (buildBotRequest cfg (lookupField req.body "message")) =
      POutcome.rejected e) :
    (talkToChatbot cfg remote (lookupField req.body "message")).logs =
      ["message " ++ jsValToString (lookupField req.body "message"),
       "ERROR: " ++ e] ∧
      (talkToChatbot cfg remote (lookupField req.body "message")).outcome =
        POutcome.fulfilled none ∧
      chatbotHandler cfg remote req =
        { status := 200, body := JsVal.vobj [("message", JsVal.undef)] } := by
  refine ⟨?_, ?_, ?_⟩ <;>
    simp [talkToChatbot, talkLogs, pThen, pCatch, h, chatbotHandler, send,
      optQrToJsVal]

/-- C2 witness: the failure path evaluated on the concrete rejecting remote. -/
theorem c2_remote_failure_swallowed_witness :
    (talkToChatbot cfg0 remoteDown (lookupField reqHello.body "message")).logs =
      ["message hello", "ERROR: UNAUTHENTICATED"] ∧
      (talkToChatbot cfg0 remoteDown (lookupField reqHello.body "message")).outcome =
        POutcome.fulfilled none ∧
      chatbotHandler cfg0 remoteDown reqHello =
        { status := 200, body := JsVal.vobj [("message", JsVal.undef)] } :=
  c2_remote_failure_swallowed cfg0 remoteDown reqHello "UNAUTHENTICATED" rfl

/-- C7 counterexample: the alternate `POST /send-msg` neither reads the
`message` field (it reads `MSG`; on the body `{message: "hello"}` the value
it forwards is `undefined`) nor answers with a `message`/`error`-shaped
body: its success response is `{Reply: <text>}`. -/
theorem c7_counterexample :
    lookupField reqHello.body "MSG" = JsVal.undef ∧
      sendMsgHandler "alt-session-path" remoteGreet reqHello =
        some { status := 200, body := JsVal.vobj [("Reply", JsVal.vstr "hi there")] } ∧
      ¬ respShapeOK { status := 200, body := JsVal.vobj [("Reply", JsVal.vstr "hi there")] } := by
  refine ⟨rfl, rfl, ?_⟩
  rintro (⟨v, hv⟩ | ⟨t, ht⟩)
  · simp at hv
  · simp at ht

/-- C7 as amended: `POST /chatbot` accepts `{message: string}` and always
answers with a `message`- or `error`-shaped body; the alternate
`POST /send-msg` instead reads the body's `MSG` field and answers
`{Reply: <fulfillment text>}` on success. -/
theorem c7_both_variants_shapes :
    (∀ (cfg : DialogflowConfig)
      (remote : BotRequest → POutcome DetectIntentResponse) (req : HttpRequest),
        respShapeOK (chatbotHandler cfg remote req)) ∧
      (∀ (sp : String) (remote : BotRequest → POutcome DetectIntentResponse)
        (req : HttpRequest) (qr : QueryResult),
          remote (buildAltRequest sp (lookupField req.body "MSG")) =
            POutcome.fulfilled { queryResult := qr } →
          sendMsgHandler sp remote req =
            some { status := 200
                   body := JsVal.vobj [("Reply", JsVal.vstr qr.fulfillmentText)] }) := by
  constructor
  · intro cfg remote req
    left
    cases h : remote (buildBotRequest cfg (lookupField req.body "message")) with
    | fulfilled a =>
        exact ⟨qrToJsVal a.queryResult,
          by simp [chatbotHandler, talkToChatbot, pThen, pCatch, h, send, optQrToJsVal]⟩
    | rejected e =>
        exact ⟨JsVal.undef,
          by simp [chatbotHandler, talkToChatbot, pThen, pCatch, h, send, optQrToJsVal]⟩
  · intro sp remote req qr h
    simp [sendMsgHandler, runSample, pThen, h, send]

/-- C7 witness: the amended statement evaluated on the concrete fixtures for
both variants. -/
theorem c7_both_variants_shapes_witness :
    respShapeOK (chatbotHandler cfg0 remoteGreet reqHello) ∧
      sendMsgHandler "alt-session-path" remoteGreet
        { body := [("MSG", JsVal.vstr "hello")] } =
        some { status := 200, body := JsVal.vobj [("Reply", JsVal.vstr "hi there")] } :=
  ⟨c7_both_variants_shapes.1 cfg0 remoteGreet reqHello,
   c7_both_variants_shapes.2 "alt-session-path" remoteGreet
     { body := [("MSG", JsVal.vstr "hello")] } qrGreet rfl⟩

/-- C8: no layer validates the message: whatever `req.body.message` is — the
empty string or `undefined` when the field is missing — the endpoint invokes
the Bridge and the value is placed unchanged in the outbound request's
`text` field, and the response is still the 200 success-shaped body, never a
client-error rejection. -/
theorem c8_no_input_validation (cfg : DialogflowConfig)
    (remote : BotRequest → POutcome DetectIntentResponse) (req : HttpRequest) :
    (talkToChatbot cfg remote (lookupField req.body "message")).botRequest.queryInput.text.text
        = lookupField req.body "message" ∧
      lookupField [("message", JsVal.vstr "")] "message" = JsVal.vstr "" ∧
      lookupField ([] : List (String × JsVal)) "message" = JsVal.undef ∧
      (chatbotHandler cfg remote req).status = 200 ∧
      ∀ t, (chatbotHandler cfg remote req).body ≠
        JsVal.vobj [("error", JsVal.vstr t)] := by
  refine ⟨rfl, rfl, rfl, ?_, ?_⟩
  · cases h : remote (buildBotRequest cfg (lookupField req.body "message")) <;>
      simp [chatbotHandler, talkToChatbot, pThen, pCatch, h, send]
  · intro t
    cases h : remote (buildBotRequest cfg (lookupField req.body "message")) <;>
      simp [chatbotHandler, talkToChatbot, pThen, pCatch, h, send]

/-- C9: in the alternate variant, when `detectIntent` rejects, `runSample`
rejects in turn, and since the handler's promise chain has no rejection
handler, no HTTP response of any kind is sent for that request. -/
theorem c9_sendmsg_rejection_unhandled (sp : String)
    (remote : BotRequest → POutcome DetectIntentResponse) (req : HttpRequest)
    (e : String)
    (h : remote (buildAltRequest sp (lookupField req.body "MSG")) =
      POutcome.rejected e) :
    runSample sp remote (lookupField req.body "MSG") = POutcome.rejected e ∧
      sendMsgHandler sp remote req = none := by
  refine ⟨?_, ?_⟩ <;> simp [runSample, sendMsgHandler, pThen, h]

/-- C9 witness: the unhandled-rejection path evaluated on the concrete
rejecting remote. -/
theorem c9_sendmsg_rejection_unhandled_witness :
    runSample "alt-session-path" remoteDown (lookupField reqHello.body "MSG") =
        POutcome.rejected "UNAUTHENTICATED" ∧
      sendMsgHandler "alt-session-path" remoteDown reqHello = none :=
  c9_sendmsg_rejection_unhandled "alt-session-path" remoteDown reqHello
    "UNAUTHENTICATED" rfl

/-- C10: request construction is deterministic and history-independent: in
any two server runs — with different remote behaviour, different preceding
requests and positions — two requests carrying equal message values yield
identical outbound request objects. -/
theorem c10_request_construction_deterministic (cfg : DialogflowConfig)
    (r1 r2 : BotRequest → POutcome DetectIntentResponse)
    (reqs1 reqs2 : List HttpRequest) (i j : Nat)
    (p1 p2 : TalkResult × HttpResponse) (q1 q2 : HttpRequest)
    (hq1 : reqs1[i]? = some q1) (hq2 : reqs2[j]? = some q2)
    (h1 : (handleAll cfg r1 reqs1)[i]? = some p1)
    (h2 : (handleAll cfg r2 reqs2)[j]? = some p2)
    (hm : lookupField q1.body "message" = lookupField q2.body "message") :
    p1.1.botRequest = p2.1.botRequest := by
  unfold handleAll at h1 h2
  rw [List.getElem?_map, hq1] at h1
  rw [List.getElem?_map, hq2] at h2
  cases h1; cases h2
  show buildBotRequest cfg (lookupField q1.body "message") =
    buildBotRequest cfg (lookupField q2.body "message")
  rw [hm]

/-- C10 witness: the same message in two different runs (different remote
behaviour, different history, different position) yields the same outbound
request. -/
theorem c10_request_construction_deterministic_witness :
    (handleAll cfg0 remoteGreet [reqHello])[0]? = some pairHello ∧
      (handleAll cfg0 remoteDown [reqBye, reqHello])[1]? = some pairHelloDown ∧
      pairHello.1.botRequest = pairHelloDown.1.botRequest :=
  ⟨rfl, rfl,
   c10_request_construction_deterministic cfg0 remoteGreet remoteDown
     [reqHello] [reqBye, reqHello] 0 1 pairHello pairHelloDown reqHello reqHello
     rfl rfl rfl rfl rfl⟩

end ChatbotServer
